import Mathlib

/-!
Verification of the Mixamo-Downloader repository.

The repository ships `main.pyw` (application entry point, icon lookup) and a
build script; the download-orchestration module (`ui`), the path construction,
the settings persistence and the page scraper are described by the design
specification.  Definitions below are embedded from `main.pyw` where the code
is present, and modelled from the specification where only the spec describes
the component.
-/

namespace MixamoDownloader

/-! ## Data model: tasks, statuses, errors (modelled from the spec) -/

/-- Modelled from the spec: the status of a Download Task
(`Queued → InProgress → Paused/Completed/Failed`); the orchestrator code is
not under `src/`. -/
inductive TaskStatus where
  | queued
  | inProgress
  | pausedStatus
  | completed
  | failed
deriving DecidableEq, Repr

/-- Modelled from the spec: the task-level error kinds of section 7
(AuthenticationFailed, ElementNotFound, DownloadTimeout, FilesystemError)
plus the network error named in the failure-handling rule; the orchestrator
code is not under `src/`. -/
inductive TaskError where
  | authenticationFailed
  | elementNotFound
  | downloadTimeout
  | filesystemError
  | networkError
deriving DecidableEq, Repr

/-- Modelled from the spec: a Download Task is
(Character, Animation, output path, chosen format); the orchestrator code is
not under `src/`. -/
structure DownloadTask where
  character : String
  animation : String
  outputDir : String
  format : String
deriving DecidableEq, Repr

/-- A queued task together with the outcome its execution would produce in the
current environment: `none` means the download succeeds, `some e` means it
fails with task-level error `e`. -/
abbrev QTask := DownloadTask × Option TaskError

/-! ## Output path construction (modelled from the spec) -/

/-- Modelled from the spec: the output path for a downloaded animation,
`<output>/<Character>/animations/<Animation>.<ext>`; the file-placement code
is not under `src/`. -/
def outputPath (outputDir character animation format : String) : String :=
  outputDir ++ "/" ++ character ++ "/animations/" ++ animation ++ "." ++ format

/-- Modelled from the spec: the output path for the character model,
`<output>/<Character>/character_model.<ext>`; the file-placement code is not
under `src/`. -/
def characterModelPath (outputDir character format : String) : String :=
  outputDir ++ "/" ++ character ++ "/character_model." ++ format

/-- The expected output path of a download task's animation file. -/
def expectedPath (t : DownloadTask) : String :=
  outputPath t.outputDir t.character t.animation t.format

/-! ## Big-step orchestrator run (modelled from the spec) -/

/-- The final status a task ends in, given its outcome. -/
def finishStatus (q : QTask) : TaskStatus :=
  match q.snd with
  | none => TaskStatus.completed
  | some _ => TaskStatus.failed

/-- The aggregate result of a full orchestrator run: per-task final statuses
in queue order, the files placed at their expected paths, and the aggregate
summary of succeeded and failed counts. -/
structure RunResult where
  statuses : List (DownloadTask × TaskStatus)
  files : List String
  succeeded : Nat
  failed : Nat
deriving DecidableEq, Repr

/-- Modelled from the spec: the Download Orchestrator is a single-pass,
sequential consumer of the task list with skip-on-failure semantics — a
successful task is marked Completed and its file placed at the expected path,
a failed task is marked Failed and skipped, and in either case the run
proceeds to the remaining tasks; the orchestrator code is not under `src/`. -/
def runQueue : List QTask → RunResult
  | [] => ⟨[], [], 0, 0⟩
  | q :: rest =>
    let r := runQueue rest
    match q.snd with
    | none =>
      ⟨(q.fst, TaskStatus.completed) :: r.statuses, expectedPath q.fst :: r.files,
        r.succeeded + 1, r.failed⟩
    | some _ =>
      ⟨(q.fst, TaskStatus.failed) :: r.statuses, r.files, r.succeeded, r.failed + 1⟩

/-! ## Small-step orchestrator machine with pause/resume (modelled from the spec) -/

/-- Modelled from the spec: the in-memory state of a run — the un-started
tasks in queue order, the at-most-one task currently in progress, the
finished tasks with their final statuses, and the shared boolean pause flag;
the orchestrator code is not under `src/`. -/
structure MState where
  pending : List QTask
  current : Option QTask
  done : List (QTask × TaskStatus)
  paused : Bool
deriving DecidableEq, Repr

/-- The initial state of a run over a queue of tasks. -/
def initState (tasks : List QTask) : MState :=
  ⟨tasks, none, [], false⟩

/-- Modelled from the spec: one step of the orchestrator.  An in-flight task
always runs to completion (the pause flag is only checked between tasks);
otherwise, when not paused, the next un-started task is taken from the queue
and started.  The orchestrator code is not under `src/`. -/
def mstep (s : MState) : MState :=
  match s.current with
  | some q => { s with current := none, done := s.done ++ [(q, finishStatus q)] }
  | none =>
    if s.paused then s
    else
      match s.pending with
      | [] => s
      | q :: rest => { s with pending := rest, current := some q }

/-- Setting the shared pause flag. -/
def pauseState (s : MState) : MState :=
  { s with paused := true }

/-- Clearing the shared pause flag. -/
def resumeState (s : MState) : MState :=
  { s with paused := false }

/-! ## Settings persistence (modelled from the spec) -/

/-- A JSON scalar value as it appears in the settings file. -/
inductive JValue where
  | jstr (s : String)
  | jnum (n : Int)
  | jbool (b : Bool)
deriving DecidableEq, Repr

/-- Modelled from the spec: the user-facing configuration persisted in the
JSON settings file (format, fps, skin, quality flags); the settings code is
not under `src/`. -/
structure Settings where
  format : String
  fps : Int
  skin : Bool
  keyframe_reduction : Bool
  quality : String
deriving DecidableEq, Repr

/-- Modelled from the spec: writing the settings to the JSON settings file as
key-value pairs; the settings code is not under `src/`. -/
def saveSettings (s : Settings) : List (String × JValue) :=
  [("format", JValue.jstr s.format),
   ("fps", JValue.jnum s.fps),
   ("skin", JValue.jbool s.skin),
   ("keyframe_reduction", JValue.jbool s.keyframe_reduction),
   ("quality", JValue.jstr s.quality)]

/-- Modelled from the spec: reading the settings back from the JSON settings
file, looking each key up and checking its value kind; the settings code is
not under `src/`. -/
def loadSettings (kvs : List (String × JValue)) : Option Settings :=
  match kvs.lookup "format", kvs.lookup "fps", kvs.lookup "skin",
      kvs.lookup "keyframe_reduction", kvs.lookup "quality" with
  | some (JValue.jstr f), some (JValue.jnum n), some (JValue.jbool sk),
      some (JValue.jbool kr), some (JValue.jstr q) => some ⟨f, n, sk, kr, q⟩
  | _, _, _, _, _ => none

/-- The example settings of the spec: format `fbx`, fps `30`, with the
remaining configuration keys at their documented defaults. -/
def exampleSettings : Settings :=
  ⟨"fbx", 30, true, false, "standard"⟩

/-! ## Page scraper (modelled from the spec) -/

/-- Trimming of a display name: leading and trailing whitespace characters
are removed, nothing else. -/
def strTrim (s : String) : String :=
  ⟨(((s.data.dropWhile Char.isWhitespace).reverse.dropWhile Char.isWhitespace).reverse)⟩

/-- A rendered DOM node: a text node, or an element with a tag, attributes
and children. -/
inductive DomNode where
  | text (s : String)
  | element (tag : String) (attrs : List (String × String)) (children : List DomNode)

mutual

/-- The concatenated text content of a node. -/
def textContent : DomNode → String
  | DomNode.text s => s
  | DomNode.element _ _ cs => textContentList cs

/-- The concatenated text content of a list of nodes. -/
def textContentList : List DomNode → String
  | [] => ""
  | c :: cs => textContent c ++ textContentList cs

end

mutual

/-- Modelled from the spec: the Page Scraper's extraction of characters or
animations as name/identifier pairs from a loaded DOM — every element
carrying a `data-id` attribute contributes the pair of its trimmed display
text and its identifier; the scraper code is not under `src/`. -/
def extractItems : DomNode → List (String × String)
  | DomNode.text _ => []
  | DomNode.element _ attrs cs =>
    match attrs.lookup "data-id" with
    | some ident => (strTrim (textContentList cs), ident) :: extractItemsList cs
    | none => extractItemsList cs

/-- Extraction over a list of sibling nodes. -/
def extractItemsList : List DomNode → List (String × String)
  | [] => []
  | c :: cs => extractItems c ++ extractItemsList cs

end

mutual

/-- The same extraction as `extractItems` but with the raw, untrimmed display
text, used to state that trimming is the only transformation applied. -/
def rawItems : DomNode → List (String × String)
  | DomNode.text _ => []
  | DomNode.element _ attrs cs =>
    match attrs.lookup "data-id" with
    | some ident => (textContentList cs, ident) :: rawItemsList cs
    | none => rawItemsList cs

/-- Raw extraction over a list of sibling nodes. -/
def rawItemsList : List DomNode → List (String × String)
  | [] => []
  | c :: cs => rawItems c ++ rawItemsList cs

end

/-! ## Icon lookup (embedded from `main.pyw`) -/

/-- `os.path.join` for a relative second component, as used in `main.pyw`. -/
def joinPath (a b : String) : String :=
  a ++ "/" ++ b

/-- `os.path.dirname`: everything before the last path separator, the empty
string when the path has none. -/
def dirname (p : String) : String :=
  ⟨(((p.data.reverse.dropWhile (fun c => c != '/')).drop 1).reverse)⟩

/-- The environment `find_icon_path` consults: whether the program runs from
a frozen PyInstaller executable (`sys.frozen`), the executable path
(`sys.executable`), the script directory (`os.path.dirname(os.path.abspath(__file__))`),
and the filesystem's answer to `os.path.exists`. -/
structure FsEnv where
  frozen : Bool
  executable : String
  scriptDir : String
  pathExists : String → Bool

/-- Embedded from `main.pyw` lines 10-44: find the path to the icon file,
checking a fixed sequence of candidate locations and returning the first one
that exists, or `None` when none does. -/
def find_icon_path (env : FsEnv) (icon_name : String) : Option String :=
  if env.frozen then
    let base_path := dirname env.executable
    let icon_path1 := joinPath base_path icon_name
    if env.pathExists icon_path1 then some icon_path1
    else
      let icon_path2 := joinPath (joinPath base_path "_internal") icon_name
      if env.pathExists icon_path2 then some icon_path2
      else
        let icon_path3 := joinPath (dirname base_path) icon_name
        if env.pathExists icon_path3 then some icon_path3
        else none
  else
    if env.pathExists icon_name then some icon_name
    else
      let icon_path := joinPath env.scriptDir icon_name
      if env.pathExists icon_path then some icon_path
      else none

/-- The candidate icon locations of `find_icon_path` in its fixed search
order: in frozen mode the executable directory, its `_internal`
subdirectory, then the executable directory's parent; in source mode the
current directory (the bare name) then the script directory. -/
def iconCandidates (env : FsEnv) (icon_name : String) : List String :=
  if env.frozen then
    let base_path := dirname env.executable
    [joinPath base_path icon_name,
     joinPath (joinPath base_path "_internal") icon_name,
     joinPath (dirname base_path) icon_name]
  else
    [icon_name, joinPath env.scriptDir icon_name]

/-! ## Application startup (embedded from `main.pyw`) -/

/-- The externally visible actions of the `__main__` block. -/
inductive AppAction where
  | createApplication
  | setWindowIcon (path : String)
  | createMainWindow
  | showMainWindow
  | execEventLoop
deriving DecidableEq, Repr

/-- Embedded from `main.pyw` lines 47-68: the `__main__` block creates the
application, sets the window icon only when `find_icon_path` returned a
path, then creates and shows the main window and starts the event loop. -/
def mainActions (env : FsEnv) : List AppAction :=
  [AppAction.createApplication] ++
  (match find_icon_path env "mixamo.ico" with
   | some p => [AppAction.setWindowIcon p]
   | none => []) ++
  [AppAction.createMainWindow, AppAction.showMainWindow, AppAction.execEventLoop]

/-! ## Concrete inputs used by the witnesses -/

/-- A concrete task: character Remy, animation walking, fbx format. -/
def taskWalking : DownloadTask :=
  ⟨"Remy", "walking", "downloads", "fbx"⟩

/-- A concrete task: character Remy, animation running, fbx format. -/
def taskRunning : DownloadTask :=
  ⟨"Remy", "running", "downloads", "fbx"⟩

/-- A concrete task: character Remy, animation jumping, fbx format. -/
def taskJumping : DownloadTask :=
  ⟨"Remy", "jumping", "downloads", "fbx"⟩

/-- A concrete frozen-mode environment in which only the `_internal`
candidate for the icon exists. -/
def envFrozen : FsEnv :=
  ⟨true, "C:/app/dist/md.exe", "",
    fun p => p == "C:/app/dist/_internal/mixamo.ico"⟩

/-- A concrete source-mode environment in which the icon exists in the
current directory. -/
def envSource : FsEnv :=
  ⟨false, "", "C:/src", fun p => p == "mixamo.ico"⟩

/-- A concrete DOM listing two characters with leading and trailing spaces
around their display names. -/
def sampleDom : DomNode :=
  DomNode.element "ul" []
    [DomNode.element "li" [("data-id", "ch-remy")] [DomNode.text "  Remy "],
     DomNode.element "li" [("data-id", "ch-kachujin")] [DomNode.text " Kachujin  "]]

/-! ## Helper lemmas about the big-step run -/

theorem runQueue_append (as bs : List QTask) :
    (runQueue (as ++ bs)).statuses = (runQueue as).statuses ++ (runQueue bs).statuses ∧
    (runQueue (as ++ bs)).files = (runQueue as).files ++ (runQueue bs).files ∧
    (runQueue (as ++ bs)).succeeded = (runQueue as).succeeded + (runQueue bs).succeeded ∧
    (runQueue (as ++ bs)).failed = (runQueue as).failed + (runQueue bs).failed := by
  induction as with
  | nil => simp [runQueue]
  | cons q rest ih =>
    cases h : q.snd <;>
      simp [runQueue, h, ih.1, ih.2.1, ih.2.2.1, ih.2.2.2] <;> omega

theorem runQueue_all_none (ts : List QTask) (h : ∀ q ∈ ts, q.snd = none) :
    runQueue ts = ⟨ts.map (fun q => (q.fst, TaskStatus.completed)),
      ts.map (fun q => expectedPath q.fst), ts.length, 0⟩ := by
  induction ts with
  | nil => rfl
  | cons q rest ih =>
    have hq : q.snd = none := h q (by simp)
    have hr := ih (fun p hp => h p (by simp [hp]))
    simp [runQueue, hq, hr]

/-! ## Claim theorems -/

/-- Claim C5: the output path for a downloaded animation follows the
structure `<output>/<Character>/animations/<Animation>.<ext>`, the character
model lives at `<output>/<Character>/character_model.<ext>`, and in
particular output directory `downloads`, character `Remy`, animation
`walking`, format `fbx` yield `downloads/Remy/animations/walking.fbx`. -/
theorem outputPath_example :
    outputPath "downloads" "Remy" "walking" "fbx" =
      "downloads/Remy/animations/walking.fbx" ∧
    characterModelPath "downloads" "Remy" "fbx" =
      "downloads/Remy/character_model.fbx" := by
  exact ⟨rfl, rfl⟩

/-- Claim C6: output path construction is a pure function of the quadruple
(output directory, character, animation, format) — two calls with identical
inputs produce identical paths. -/
theorem outputPath_deterministic (o c a f o2 c2 a2 f2 : String)
    (ho : o = o2) (hc : c = c2) (ha : a = a2) (hf : f = f2) :
    outputPath o c a f = outputPath o2 c2 a2 f2 := by
  subst ho hc ha hf
  rfl

/-- Witness for C6 at the concrete example inputs. -/
theorem outputPath_deterministic_witness :
    outputPath "downloads" "Remy" "walking" "fbx" =
      outputPath "downloads" "Remy" "walking" "fbx" :=
  outputPath_deterministic "downloads" "Remy" "walking" "fbx"
    "downloads" "Remy" "walking" "fbx" rfl rfl rfl rfl

/-- Claim C7: persisting the settings to the JSON settings file and
reloading them round-trips to identical values; in particular the settings
with format `fbx` and fps `30` reload to exactly the same key-value pairs. -/
theorem settings_roundtrip :
    (∀ s : Settings, loadSettings (saveSettings s) = some s) ∧
    loadSettings (saveSettings exampleSettings) = some exampleSettings := by
  constructor
  · intro s
    cases s
    rfl
  · decide

/-- Claim C2: for a queue in which every task succeeds, the final state
reports exactly N succeeded and 0 failed, and all N downloaded files are
present at their expected output paths. -/
theorem all_succeed_summary (ts : List QTask) (h : ∀ q ∈ ts, q.snd = none) :
    (runQueue ts).succeeded = ts.length ∧
    (runQueue ts).failed = 0 ∧
    (runQueue ts).files = ts.map (fun q => expectedPath q.fst) ∧
    (runQueue ts).files.length = ts.length := by
  have hr := runQueue_all_none ts h
  simp [hr]

/-- Witness for C2 on a concrete two-task all-succeeding queue. -/
theorem all_succeed_summary_witness :
    (runQueue [(taskWalking, none), (taskRunning, none)]).succeeded = 2 ∧
    (runQueue [(taskWalking, none), (taskRunning, none)]).failed = 0 ∧
    (runQueue [(taskWalking, none), (taskRunning, none)]).files =
      ["downloads/Remy/animations/walking.fbx",
       "downloads/Remy/animations/running.fbx"] ∧
    (runQueue [(taskWalking, none), (taskRunning, none)]).files.length = 2 :=
  all_succeed_summary [(taskWalking, none), (taskRunning, none)] (by decide)

/-- Claim C1: when one task of the queue fails with a task-level error, the
orchestrator marks exactly that task as Failed, still executes every later
task, and the aggregate summary counts all the other tasks as succeeded and
exactly one failure; the error never aborts the remaining queue. -/
theorem single_failure_skipped (ts1 ts2 : List QTask) (t : DownloadTask)
    (e : TaskError) (h1 : ∀ q ∈ ts1, q.snd = none) (h2 : ∀ q ∈ ts2, q.snd = none) :
    (runQueue (ts1 ++ (t, some e) :: ts2)).statuses =
      ts1.map (fun q => (q.fst, TaskStatus.completed)) ++
        (t, TaskStatus.failed) :: ts2.map (fun q => (q.fst, TaskStatus.completed)) ∧
    (runQueue (ts1 ++ (t, some e) :: ts2)).succeeded = ts1.length + ts2.length ∧
    (runQueue (ts1 ++ (t, some e) :: ts2)).failed = 1 ∧
    (runQueue (ts1 ++ (t, some e) :: ts2)).statuses.length =
      ts1.length + 1 + ts2.length := by
  obtain ⟨hs, hf, hsu, hfa⟩ := runQueue_append ts1 ((t, some e) :: ts2)
  have hr1 := runQueue_all_none ts1 h1
  have hr2 := runQueue_all_none ts2 h2
  have hmid : runQueue ((t, some e) :: ts2) =
      ⟨(t, TaskStatus.failed) :: ts2.map (fun q => (q.fst, TaskStatus.completed)),
        ts2.map (fun q => expectedPath q.fst), ts2.length, 1⟩ := by
    simp [runQueue, hr2]
  refine ⟨?_, ?_, ?_, ?_⟩
  · rw [hs, hr1, hmid]
  · rw [hsu, hr1, hmid]
  · rw [hfa, hr1, hmid]
    simp
  · rw [hs, hr1, hmid]
    simp
    omega

/-- Witness for C1: a three-task queue whose middle task times out. -/
theorem single_failure_skipped_witness :
    (runQueue [(taskWalking, none), (taskRunning, some TaskError.downloadTimeout),
        (taskJumping, none)]).statuses =
      [(taskWalking, TaskStatus.completed), (taskRunning, TaskStatus.failed),
       (taskJumping, TaskStatus.completed)] ∧
    (runQueue [(taskWalking, none), (taskRunning, some TaskError.downloadTimeout),
        (taskJumping, none)]).succeeded = 2 ∧
    (runQueue [(taskWalking, none), (taskRunning, some TaskError.downloadTimeout),
        (taskJumping, none)]).failed = 1 ∧
    (runQueue [(taskWalking, none), (taskRunning, some TaskError.downloadTimeout),
        (taskJumping, none)]).statuses.length = 3 :=
  single_failure_skipped [(taskWalking, none)] [(taskJumping, none)]
    taskRunning TaskError.downloadTimeout (by decide) (by decide)

/-! ## Helper lemmas about the small-step machine -/

theorem mstep_preserves (tasks : List QTask) (s : MState)
    (h : s.done.map Prod.fst ++ s.current.toList ++ s.pending = tasks) :
    (mstep s).done.map Prod.fst ++ (mstep s).current.toList ++ (mstep s).pending =
      tasks := by
  cases s with
  | mk pending current done paused =>
    cases current with
    | some q => simpa [mstep] using h
    | none =>
      by_cases hp : paused
      · simpa [mstep, hp] using h
      · cases pending with
        | nil => simpa [mstep, hp] using h
        | cons q rest => simpa [mstep, hp] using h

theorem mstep_two_mul (tasks : List QTask) (k : Nat) (hk : k ≤ tasks.length) :
    mstep^[2 * k] (initState tasks) =
      ⟨tasks.drop k, none, (tasks.take k).map (fun q => (q, finishStatus q)), false⟩ := by
  induction k with
  | zero => simp [initState]
  | succ m ih =>
    have hm : m ≤ tasks.length := by omega
    have hlt : m < tasks.length := by omega
    have h2 : 2 * (m + 1) = 2 * m + 1 + 1 := by ring
    have hdrop : tasks.drop m = tasks[m] :: tasks.drop (m + 1) :=
      List.drop_eq_getElem_cons hlt
    rw [h2, Function.iterate_succ_apply', Function.iterate_succ_apply', ih hm, hdrop,
      List.take_succ, List.getElem?_eq_getElem hlt]
    simp only [Option.toList_some, List.map_append, List.map_cons, List.map_nil]
    rfl

/-- Claim C4: the orchestrator processes the task queue strictly in queue
order in a single sequential pass — at every step, the finished tasks, the
at-most-one task in progress, and the still-pending tasks concatenate back
to the original queue in order, and at most one task is in progress. -/
theorem sequential_single_pass (tasks : List QTask) (n : Nat) :
    (mstep^[n] (initState tasks)).done.map Prod.fst ++
      (mstep^[n] (initState tasks)).current.toList ++
      (mstep^[n] (initState tasks)).pending = tasks ∧
    (mstep^[n] (initState tasks)).current.toList.length ≤ 1 := by
  constructor
  · induction n with
    | zero => simp [initState]
    | succ m ih =>
      rw [Function.iterate_succ_apply']
      exact mstep_preserves tasks _ ih
  · cases h : (mstep^[n] (initState tasks)).current <;> simp [h]

/-- Claim C3: pausing after task k completes and resuming causes exactly
task k+1 to start next — with the pause flag set no new task starts, the
completed work is untouched by pausing, resuming starts exactly the (k+1)-st
task and never re-runs task k, and setting the pause flag never interrupts an
in-flight task, which still runs to completion. -/
theorem pause_resume_next_task (tasks : List QTask) (k : Nat)
    (hk : k < tasks.length) :
    (mstep (pauseState (mstep^[2 * k] (initState tasks))) =
      pauseState (mstep^[2 * k] (initState tasks))) ∧
    ((pauseState (mstep^[2 * k] (initState tasks))).done =
      (mstep^[2 * k] (initState tasks)).done ∧
     (pauseState (mstep^[2 * k] (initState tasks))).pending =
      (mstep^[2 * k] (initState tasks)).pending) ∧
    ((mstep (resumeState (pauseState (mstep^[2 * k] (initState tasks))))).current =
      some tasks[k]) ∧
    ((mstep (resumeState (pauseState (mstep^[2 * k] (initState tasks))))).done =
      (tasks.take k).map (fun q => (q, finishStatus q))) ∧
    ((mstep (resumeState (pauseState (mstep^[2 * k] (initState tasks))))).pending =
      tasks.drop (k + 1)) ∧
    (∀ s : MState, ∀ q : QTask, s.current = some q →
      mstep (pauseState s) =
        ⟨s.pending, none, s.done ++ [(q, finishStatus q)], true⟩) := by
  have h := mstep_two_mul tasks k (le_of_lt hk)
  have hdrop : tasks.drop k = tasks[k] :: tasks.drop (k + 1) :=
    List.drop_eq_getElem_cons hk
  have hstart : mstep (resumeState (pauseState (mstep^[2 * k] (initState tasks)))) =
      ⟨tasks.drop (k + 1), some tasks[k],
        (tasks.take k).map (fun q => (q, finishStatus q)), false⟩ := by
    rw [h]
    show mstep ⟨tasks.drop k, none,
      (tasks.take k).map (fun q => (q, finishStatus q)), false⟩ = _
    rw [hdrop]
    rfl
  refine ⟨?_, ⟨?_, ?_⟩, ?_, ?_, ?_, ?_⟩
  · rw [h]
    rfl
  · rw [h]
    rfl
  · rw [h]
    rfl
  · rw [hstart]
  · rw [hstart]
  · rw [hstart]
  · intro s q hq
    cases s with
    | mk pending current done paused =>
      cases hq
      simp [pauseState, mstep]

/-- Witness for C3: in a concrete two-task queue, pausing after the first
task and resuming starts exactly the second task. -/
theorem pause_resume_next_task_witness :
    (mstep (resumeState (pauseState
        (mstep^[2 * 1] (initState [(taskWalking, none), (taskRunning, none)]))))).current =
      some (taskRunning, none) :=
  (pause_resume_next_task [(taskWalking, none), (taskRunning, none)] 1
    (by decide)).2.2.1

/-! ## Helper lemmas about the scraper -/

mutual

theorem extractItems_eq_raw : ∀ d : DomNode,
    extractItems d = (rawItems d).map (fun p => (strTrim p.fst, p.snd))
  | DomNode.text s => rfl
  | DomNode.element tag attrs cs => by
    cases hl : attrs.lookup "data-id" <;>
      simp [extractItems, rawItems, hl, extractItemsList_eq_raw cs]

theorem extractItemsList_eq_raw : ∀ cs : List DomNode,
    extractItemsList cs = (rawItemsList cs).map (fun p => (strTrim p.fst, p.snd))
  | [] => rfl
  | c :: cs => by
    simp [extractItemsList, rawItemsList, extractItems_eq_raw c,
      extractItemsList_eq_raw cs]

end

/-- Claim C8: the Page Scraper's extraction of name/identifier pairs is pure
and stateless — its output depends only on the given DOM — and the only
transformation applied to display names is trimming: the extracted pairs are
exactly the raw pairs with their display names trimmed. -/
theorem scraper_pure_trim_only (d d2 : DomNode) (h : d = d2) :
    extractItems d = extractItems d2 ∧
    extractItems d = (rawItems d).map (fun p => (strTrim p.fst, p.snd)) := by
  subst h
  exact ⟨rfl, extractItems_eq_raw d⟩

/-- Witness for C8: on a concrete listing DOM the scraper returns the
trimmed raw pairs. -/
theorem scraper_pure_trim_only_witness :
    (extractItems sampleDom =
      (rawItems sampleDom).map (fun p => (strTrim p.fst, p.snd))) ∧
    extractItems sampleDom = [("Remy", "ch-remy"), ("Kachujin", "ch-kachujin")] :=
  ⟨(scraper_pure_trim_only sampleDom sampleDom rfl).2, by decide⟩

/-- Claim C9: `find_icon_path` returns the first candidate path in its fixed
search order for which the existence check succeeds — frozen mode checks the
executable directory, its `_internal` subdirectory, then the executable
directory's parent; source mode checks the current directory then the script
directory — and returns `none` when no candidate exists; it never returns a
path that failed the existence check. -/
theorem find_icon_path_first_existing (env : FsEnv) (name : String) :
    find_icon_path env name = (iconCandidates env name).find? env.pathExists ∧
    ∀ p, find_icon_path env name = some p → env.pathExists p = true := by
  have hfind : find_icon_path env name =
      (iconCandidates env name).find? env.pathExists := by
    by_cases hf : env.frozen
    · cases h1 : env.pathExists (joinPath (dirname env.executable) name) <;>
      cases h2 : env.pathExists
          (joinPath (joinPath (dirname env.executable) "_internal") name) <;>
      cases h3 : env.pathExists (joinPath (dirname (dirname env.executable)) name) <;>
        simp [find_icon_path, iconCandidates, hf, h1, h2, h3, List.find?]
    · cases h1 : env.pathExists name <;>
      cases h2 : env.pathExists (joinPath env.scriptDir name) <;>
        simp [find_icon_path, iconCandidates, hf, h1, h2, List.find?]
  refine ⟨hfind, ?_⟩
  intro p hp
  rw [hfind] at hp
  exact List.find?_some hp

/-- Witness for C9: in a concrete frozen-mode filesystem only the
`_internal` candidate exists, `find_icon_path` agrees with the first-match
search, and the returned path passes the existence check. -/
theorem find_icon_path_first_existing_witness :
    find_icon_path envFrozen "mixamo.ico" =
      (iconCandidates envFrozen "mixamo.ico").find? envFrozen.pathExists ∧
    envFrozen.pathExists "C:/app/dist/_internal/mixamo.ico" = true :=
  ⟨(find_icon_path_first_existing envFrozen "mixamo.ico").1,
   (find_icon_path_first_existing envFrozen "mixamo.ico").2
     "C:/app/dist/_internal/mixamo.ico" (by decide)⟩

/-- Claim C10: application startup does not require the icon file — the main
window is created and shown and the event loop started regardless of what
`find_icon_path` returns, and the window icon is set exactly when
`find_icon_path` returns a path. -/
theorem startup_independent_of_icon (env : FsEnv) :
    AppAction.createMainWindow ∈ mainActions env ∧
    AppAction.showMainWindow ∈ mainActions env ∧
    AppAction.execEventLoop ∈ mainActions env ∧
    ∀ p, (AppAction.setWindowIcon p ∈ mainActions env ↔
      find_icon_path env "mixamo.ico" = some p) := by
  unfold mainActions
  cases h : find_icon_path env "mixamo.ico" <;> simp [h, eq_comm]

/-- Witness for C10: in a concrete source-mode environment both the main
window creation and the icon action appear in the startup sequence. -/
theorem startup_independent_of_icon_witness :
    AppAction.createMainWindow ∈ mainActions envSource ∧
    AppAction.setWindowIcon "mixamo.ico" ∈ mainActions envSource :=
  ⟨(startup_independent_of_icon envSource).1,
   ((startup_independent_of_icon envSource).2.2.2 "mixamo.ico").mpr (by decide)⟩

end MixamoDownloader
